import Mathlib

/-!
Shallow embedding of src/schedule-ebs-snapshot-backups.py.

The handler enumerates running instances that carry the MakeSnapshot tag,
creates one snapshot per attached volume (tagged AutoDelete=true), and then
deletes expired AutoDelete-tagged snapshots of that volume.

Modelling conventions:
  * Tag lists are embedded as they come from the API; the Python helper
    tags_dict (a dict comprehension with last-write-wins on duplicate keys)
    is embedded faithfully as an association-list upsert fold.
  * Absolute time is an integer number of whole seconds; a timedelta of
    d days is d * 86400 seconds.  Two clock readings are distinguished:
    nowS, the instant of the utcnow() call at line 47, which is also the
    start time the provider assigns to the snapshot created at line 49,
    and purgeS, the instant the now(tz) calls of the purge loop at line 70
    read; the program reaches line 70 strictly after line 49, so nowS ≤
    purgeS, with equality excluded in reality (drift between the
    individual now(tz) calls inside one purge loop is not modelled).
  * The wall-clock structure PyDateTime mirrors datetime.datetime fields;
    isoformat reproduces the Python formatting, including the omission of
    the fractional part when microsecond == 0.
  * Python int(...) raising ValueError is embedded as Option.none; a raise
    aborts the run, which the result type PyResult records together with
    the side effects already performed before the raise.
  * Cloud state is read consistently: the snapshot created and tagged at
    lines 49-50 of the source is visible to the tag-filtered listing of
    the volume snapshots at lines 53-56, as it is to a consistent
    DescribeSnapshots call.
  * int(...) parsing accepts optional surrounding whitespace, an optional
    sign, and a nonempty digit run (underscore digit grouping is not
    modelled; no claim depends on it).
-/

namespace EbsBackup

/-- Configuration constants of the source (lines 11-15). -/
def MIN_RETENTION_COUNT : Nat := 1

def RETENTION_DAYS_DEFAULT : Int := 2

def SNAPSHOT_TAG : String := "MakeSnapshot"

def RETENTION_TAG : String := "Retention"

def DELETE_TAG : String := "AutoDelete"

/-- One API tag, a key/value pair of strings. -/
structure Tag where
  key : String
  value : String
  deriving DecidableEq, Repr

/-- Insert or overwrite a key in an association list, as assignment to a
Python dict key does (value overwritten in place, insertion order kept). -/
def upsert (d : List (String × String)) (k v : String) : List (String × String) :=
  if d.any (fun p => p.1 = k) then
    d.map (fun p => if p.1 = k then (p.1, v) else p)
  else
    d ++ [(k, v)]

/-- Source line 81-83: flatten a list of tag dicts into a single dict;
a missing tag list (None in Python) flattens to the empty dict. -/
def tags_dict (tags : Option (List Tag)) : List (String × String) :=
  (tags.getD []).foldl (fun d t => upsert d t.key t.value) []

/-- Python dict .get(k): the value stored at k, if any. -/
def dget (d : List (String × String)) (k : String) : Option String :=
  (d.find? (fun p => p.1 = k)).map (fun p => p.2)

/-- Python str.lower() restricted to ASCII, which covers every value the
source compares (tag values and the literals true/false/0/none). -/
def pyLower (s : String) : String :=
  String.mk (s.data.map Char.toLower)

/-- All characters are decimal digits. -/
def allDigits (cs : List Char) : Bool :=
  cs.all Char.isDigit

/-- Value of a digit run, most significant first. -/
def digitsVal (cs : List Char) : Nat :=
  cs.foldl (fun n c => n * 10 + (c.toNat - 48)) 0

/-- Python int(s): strip surrounding whitespace, optional sign, nonempty
digit run; anything else raises ValueError, embedded as none. -/
def pyInt? (s : String) : Option Int :=
  let t := ((s.data.dropWhile Char.isWhitespace).reverse.dropWhile Char.isWhitespace).reverse
  match t with
  | [] => none
  | '+' :: ds => if ds ≠ [] ∧ allDigits ds then some (Int.ofNat (digitsVal ds)) else none
  | '-' :: ds => if ds ≠ [] ∧ allDigits ds then some (-(Int.ofNat (digitsVal ds))) else none
  | ds => if allDigits ds then some (Int.ofNat (digitsVal ds)) else none

/-- Source line 38: retention_days = int(instance_tags.get(RETENTION_TAG,
RETENTION_DAYS_DEFAULT)).  A present but unparseable value raises (none). -/
def instanceRetention (instance_tags : List (String × String)) : Option Int :=
  match dget instance_tags RETENTION_TAG with
  | none => some RETENTION_DAYS_DEFAULT
  | some s => pyInt? s

/-- Source line 52: volume_retention_days = int(volume_tags.get(
RETENTION_TAG, retention_days)). -/
def volumeRetention (volume_tags : List (String × String)) (retention_days : Int) : Option Int :=
  match dget volume_tags RETENTION_TAG with
  | none => some retention_days
  | some s => pyInt? s

/-- Wall-clock fields of a Python datetime value. -/
structure PyDateTime where
  year : Nat
  month : Nat
  day : Nat
  hour : Nat
  minute : Nat
  second : Nat
  microsecond : Nat
  deriving DecidableEq, Repr

/-- Left-pad a number with zeros to the given width. -/
def padNum (w n : Nat) : String :=
  String.mk (List.replicate (w - (toString n).length) '0') ++ toString n

/-- datetime.isoformat(): seconds part always printed, fractional part
printed as .NNNNNN only when microsecond is nonzero. -/
def isoformat (t : PyDateTime) : String :=
  padNum 4 t.year ++ "-" ++ padNum 2 t.month ++ "-" ++ padNum 2 t.day ++ "T" ++
    padNum 2 t.hour ++ ":" ++ padNum 2 t.minute ++ ":" ++ padNum 2 t.second ++
    (if t.microsecond = 0 then "" else "." ++ padNum 6 t.microsecond)

/-- Characters before the last dot, if the list holds a dot at all. -/
def beforeLastDot : List Char → Option (List Char)
  | [] => none
  | c :: rest =>
    match beforeLastDot rest with
    | some p => some (c :: p)
    | none => if c = '.' then some [] else none

/-- Python s.rpartition(sep)[0] for sep = dot: everything before the last
dot, and the empty string when the string holds no dot. -/
def rpartitionHead (s : String) : String :=
  match beforeLastDot s.data with
  | some p => String.mk p
  | none => ""

/-- Source line 47: snapshot_date = datetime.datetime.utcnow().isoformat()
.rpartition(dot)[0]. -/
def snapshotDate (now : PyDateTime) : String :=
  rpartitionHead (isoformat now)

/-- Source line 48: description = instance_name . volume id . snapshot_date
joined with dots. -/
def snapshotDescription (instance_name volumeId : String) (now : PyDateTime) : String :=
  instance_name ++ "." ++ volumeId ++ "." ++ snapshotDate now

/-- A snapshot as read back from the API: identifier, start time in whole
seconds, and its tag list (None when untagged). -/
structure Snapshot where
  id : String
  start_time : Int
  tags : Option (List Tag)
  deriving DecidableEq, Repr

/-- A volume: identifier, tag list, and its existing snapshots. -/
structure Volume where
  id : String
  tags : Option (List Tag)
  snapshots : List Snapshot
  deriving DecidableEq, Repr

/-- An instance: identifier, state name, tag list, attached volumes. -/
structure Instance where
  id : String
  state : String
  tags : Option (List Tag)
  volumes : List Volume
  deriving DecidableEq, Repr

/-- The side effects a run performs against the cloud API. -/
inductive Effect where
  | createSnapshot (volumeId description snapshotId : String)
  | createTags (snapshotId : String) (tags : List Tag)
  | deleteSnapshot (snapshotId : String)
  deriving DecidableEq, Repr

/-- Outcome of a Python call: normal return with the effects performed, or
an uncaught exception together with the effects performed before it. -/
inductive PyResult (α : Type) where
  | ok (effects : List Effect) (val : α)
  | err (effects : List Effect)
  deriving DecidableEq, Repr

/-- Effects performed, whether the call returned or raised. -/
def effectsOf {α : Type} : PyResult α → List Effect
  | .ok es _ => es
  | .err es => es

/-- The opt-out values of source lines 32 and 42. -/
def skipValues : List String := ["false", "0", "none"]

/-- Whether a tag list (as the API reports it) holds the given key; this is
the tag-key server-side filter of lines 26 and 54. -/
def hasTagKey (tags : Option (List Tag)) (k : String) : Bool :=
  (tags.getD []).any (fun t => t.key = k)

/-- Identifier the provider assigns to the snapshot created for a volume in
this run; modelled deterministically, distinctness from existing ids is a
hypothesis where a claim needs it. -/
def newSnapshotId (vol : Volume) : String :=
  "snap-new." ++ vol.id

/-- The snapshot created at line 49 as later listings see it: start time is
the current instant and line 50 has tagged it AutoDelete=true. -/
def newSnapshot (nowS : Int) (vol : Volume) : Snapshot :=
  ⟨newSnapshotId vol, nowS, some [⟨DELETE_TAG, "true"⟩]⟩

/-- Source lines 53-56: the volume snapshots carrying the AutoDelete tag
key, the just-created snapshot among them. -/
def taggedSnapshots (nowS : Int) (vol : Volume) : List Snapshot :=
  (vol.snapshots ++ [newSnapshot nowS vol]).filter (fun s => hasTagKey s.tags DELETE_TAG)

/-- Source line 63: auto_delete = str(snapshot_tags.get(DELETE_TAG)).lower();
a missing value prints as None. -/
def autoDeleteValue (s : Snapshot) : String :=
  pyLower ((dget (tags_dict s.tags) DELETE_TAG).getD "None")

/-- Source lines 68-70: is_expired = now(tz) - start_time > timedelta(days=
volume_retention_days), in whole seconds; purgeS is the clock reading of
the now(tz) call, strictly after the creation of line 49. -/
def is_expired (purgeS volume_retention_days : Int) (s : Snapshot) : Bool :=
  volume_retention_days * 86400 < purgeS - s.start_time

/-- A snapshot of the purge loop is deleted when its AutoDelete value is
true (line 64) and it is expired (line 71). -/
def shouldDelete (purgeS volume_retention_days : Int) (s : Snapshot) : Bool :=
  autoDeleteValue s = "true" && is_expired purgeS volume_retention_days s

/-- Source lines 57-76: the deletions the purge loop performs, none when the
tagged count is at or below MIN_RETENTION_COUNT; the listing is taken at
creation instant nowS, the expiry checks at purge instant purgeS. -/
def deletions (nowS purgeS volume_retention_days : Int) (vol : Volume) : List Effect :=
  if (taggedSnapshots nowS vol).length ≤ MIN_RETENTION_COUNT then
    []
  else
    ((taggedSnapshots nowS vol).filter (shouldDelete purgeS volume_retention_days)).map
      (fun s => Effect.deleteSnapshot s.id)

/-- Source lines 40-76: one iteration of the volume loop. -/
def processVolume (nowS purgeS : Int) (now : PyDateTime) (instance_name : String)
    (retention_days : Int) (vol : Volume) : PyResult Unit :=
  let volume_tags := tags_dict vol.tags
  let make_snapshot := pyLower ((dget volume_tags SNAPSHOT_TAG).getD "True")
  if make_snapshot ∈ skipValues then
    .ok [] ()
  else
    let description := snapshotDescription instance_name vol.id now
    let created : List Effect :=
      [.createSnapshot vol.id description (newSnapshotId vol),
       .createTags (newSnapshotId vol) [⟨DELETE_TAG, "true"⟩]]
    match volumeRetention volume_tags retention_days with
    | none => .err created
    | some volume_retention_days =>
      .ok (created ++ deletions nowS purgeS volume_retention_days vol) ()

/-- The volume loop over a list of volumes; a raise aborts the rest. -/
def processVolumes (nowS purgeS : Int) (now : PyDateTime) (instance_name : String)
    (retention_days : Int) : List Volume → PyResult Unit
  | [] => .ok [] ()
  | v :: rest =>
    match processVolume nowS purgeS now instance_name retention_days v with
    | .err es => .err es
    | .ok es _ =>
      match processVolumes nowS purgeS now instance_name retention_days rest with
      | .err es2 => .err (es ++ es2)
      | .ok es2 _ => .ok (es ++ es2) ()

/-- Source lines 29-76: one iteration of the instance loop. -/
def processInstance (nowS purgeS : Int) (now : PyDateTime) (inst : Instance) : PyResult Unit :=
  let instance_tags := tags_dict inst.tags
  let make_snapshot := pyLower ((dget instance_tags SNAPSHOT_TAG).getD "None")
  if make_snapshot ∈ skipValues then
    .ok [] ()
  else
    let instance_name := (dget instance_tags "Name").getD inst.id
    match instanceRetention instance_tags with
    | none => .err []
    | some retention_days =>
      processVolumes nowS purgeS now instance_name retention_days inst.volumes

/-- The instance loop; a raise aborts the rest. -/
def runInstances (nowS purgeS : Int) (now : PyDateTime) : List Instance → PyResult Unit
  | [] => .ok [] ()
  | i :: rest =>
    match processInstance nowS purgeS now i with
    | .err es => .err es
    | .ok es _ =>
      match runInstances nowS purgeS now rest with
      | .err es2 => .err (es ++ es2)
      | .ok es2 _ => .ok (es ++ es2) ()

/-- Source lines 25-28: the server-side instance filter, tag-key
MakeSnapshot present and state running. -/
def isSelected (i : Instance) : Bool :=
  hasTagKey i.tags SNAPSHOT_TAG && i.state = "running"

/-- Source lines 23-78: the handler over the population of instances; on
normal completion it returns True (line 78). -/
def lambda_handler (nowS purgeS : Int) (now : PyDateTime)
    (instances : List Instance) : PyResult Bool :=
  match runInstances nowS purgeS now (instances.filter isSelected) with
  | .err es => .err es
  | .ok es _ => .ok es true

/-! Helper lemmas shared by the claim theorems. -/

/-- A deletion effect occurs in the purge list exactly when the tagged count
exceeds the floor and some tagged snapshot with that id should be deleted. -/
theorem mem_deletions_iff (nowS purgeS vrd : Int) (vol : Volume) (x : String) :
    Effect.deleteSnapshot x ∈ deletions nowS purgeS vrd vol ↔
      (MIN_RETENTION_COUNT < (taggedSnapshots nowS vol).length ∧
       ∃ s ∈ taggedSnapshots nowS vol, shouldDelete purgeS vrd s = true ∧ s.id = x) := by
  unfold deletions
  by_cases h : (taggedSnapshots nowS vol).length ≤ MIN_RETENTION_COUNT
  · simp only [if_pos h, List.not_mem_nil, false_iff, not_and]
    intro hlt
    omega
  · simp only [if_neg h, List.mem_map]
    constructor
    · rintro ⟨s, hs, he⟩
      rw [List.mem_filter] at hs
      injection he with hid
      exact ⟨by omega, s, hs.1, hs.2, hid⟩
    · rintro ⟨hlt, s, hs, hd, hid⟩
      exact ⟨s, List.mem_filter.mpr ⟨hs, hd⟩, by rw [hid]⟩

/-- For a non-skipped volume whose retention resolves, processVolume returns
normally with the creation effects followed by the purge deletions. -/
theorem processVolume_eq (nowS purgeS : Int) (now : PyDateTime) (instance_name : String)
    (retention_days vrd : Int) (vol : Volume)
    (hproc : pyLower ((dget (tags_dict vol.tags) SNAPSHOT_TAG).getD "True") ∉ skipValues)
    (hret : volumeRetention (tags_dict vol.tags) retention_days = some vrd) :
    processVolume nowS purgeS now instance_name retention_days vol =
      PyResult.ok
        ([Effect.createSnapshot vol.id (snapshotDescription instance_name vol.id now)
            (newSnapshotId vol),
          Effect.createTags (newSnapshotId vol) [⟨DELETE_TAG, "true"⟩]] ++
         deletions nowS purgeS vrd vol) () := by
  unfold processVolume
  simp only [if_neg hproc, hret]

/-! Claim theorems. -/

/-- C3 (code bug): the description is intended to end with the ISO-8601
timestamp truncated to whole seconds, and does so when the microsecond
component is nonzero; but when utcnow() lands on a whole second isoformat()
holds no dot, rpartition returns an empty head, and the description
degenerates to name.volume-id. with an empty timestamp component. -/
theorem C3_description_timestamp :
    snapshotDescription "i-1" "vol-1" ⟨2026, 1, 2, 3, 4, 5, 123456⟩ =
        "i-1.vol-1.2026-01-02T03:04:05" ∧
    snapshotDescription "i-1" "vol-1" ⟨2026, 1, 2, 3, 4, 5, 0⟩ = "i-1.vol-1." ∧
    snapshotDate ⟨2026, 1, 2, 3, 4, 5, 0⟩ = "" := by
  refine ⟨rfl, rfl, rfl⟩

/-- C8: whenever the handler completes without raising, the value it
returns is the boolean true, whatever the population of instances. -/
theorem C8_returns_true (nowS purgeS : Int) (now : PyDateTime) (instances : List Instance)
    (es : List Effect) (b : Bool)
    (h : lambda_handler nowS purgeS now instances = PyResult.ok es b) : b = true := by
  unfold lambda_handler at h
  cases hr : runInstances nowS purgeS now (instances.filter isSelected) with
  | ok es2 v =>
    rw [hr] at h
    injection h with h1 h2
    exact h2.symm
  | err es2 =>
    rw [hr] at h
    exact PyResult.noConfusion h

/-- C8 witness: the handler on an empty population returns true. -/
theorem C8_returns_true_witness :
    lambda_handler 0 1 ⟨2026, 1, 1, 0, 0, 0, 0⟩ [] = PyResult.ok [] true ∧ true = true :=
  ⟨rfl, C8_returns_true 0 1 ⟨2026, 1, 1, 0, 0, 0, 0⟩ [] [] true rfl⟩

/-- C7: expiry is a strict comparison: a snapshot whose age equals the
retention period exactly is not expired and not deleted; expiry holds
exactly when the age strictly exceeds the retention period. -/
theorem C7_strict_expiry (nowS vrd : Int) (s : Snapshot) :
    (nowS - s.start_time = vrd * 86400 →
      is_expired nowS vrd s = false ∧ shouldDelete nowS vrd s = false) ∧
    (is_expired nowS vrd s = true ↔ vrd * 86400 < nowS - s.start_time) := by
  constructor
  · intro h
    have he : is_expired nowS vrd s = false := by
      simp [is_expired, h]
    exact ⟨he, by simp [shouldDelete, he]⟩
  · simp [is_expired]

/-- C7 witness: at age exactly five days with retention five days, the
snapshot is neither expired nor deleted. -/
theorem C7_strict_expiry_witness :
    is_expired 432000 5 ⟨"snap-eq", 0, some [⟨"AutoDelete", "true"⟩]⟩ = false ∧
    shouldDelete 432000 5 ⟨"snap-eq", 0, some [⟨"AutoDelete", "true"⟩]⟩ = false :=
  (C7_strict_expiry 432000 5 ⟨"snap-eq", 0, some [⟨"AutoDelete", "true"⟩]⟩).1 rfl

/-- C4: the effective retention period is the volume-level Retention value
when present, else the instance-level value when present, else the global
default of two days; the composition of the two source resolution steps
(line 52 over the value of line 38) realises exactly this chain. -/
theorem C4_effective_retention (instance_tags volume_tags : List (String × String))
    (retention_days : Int) :
    (∀ s n, dget volume_tags RETENTION_TAG = some s → pyInt? s = some n →
      volumeRetention volume_tags retention_days = some n) ∧
    (∀ s n, dget volume_tags RETENTION_TAG = none → dget instance_tags RETENTION_TAG = some s →
      pyInt? s = some n →
      (instanceRetention instance_tags).bind (fun rd => volumeRetention volume_tags rd) = some n) ∧
    (dget volume_tags RETENTION_TAG = none → dget instance_tags RETENTION_TAG = none →
      (instanceRetention instance_tags).bind (fun rd => volumeRetention volume_tags rd) =
        some RETENTION_DAYS_DEFAULT) := by
  refine ⟨?_, ?_, ?_⟩
  · intro s n hv hp
    simp [volumeRetention, hv, hp]
  · intro s n hv hi hp
    simp [instanceRetention, volumeRetention, hv, hi, hp]
  · intro hv hi
    simp [instanceRetention, volumeRetention, hv, hi]

/-- C4 witness: instance Retention 7 with no volume override resolves to 7;
a volume override 3 wins over it; with neither the default 2 applies. -/
theorem C4_effective_retention_witness :
    volumeRetention [(RETENTION_TAG, "3")] 7 = some 3 ∧
    (instanceRetention [(RETENTION_TAG, "7")]).bind (fun rd => volumeRetention [] rd) = some 7 ∧
    (instanceRetention []).bind (fun rd => volumeRetention [] rd) = some RETENTION_DAYS_DEFAULT :=
  ⟨(C4_effective_retention [] [(RETENTION_TAG, "3")] 7).1 "3" 3 rfl rfl,
   (C4_effective_retention [(RETENTION_TAG, "7")] [] 2).2.1 "7" 7 rfl rfl rfl,
   (C4_effective_retention [] [] 2).2.2 rfl rfl⟩

/-- C5 counterexample: a Retention value that does not parse as an integer
does not fall back at either level: instance-level resolution raises,
volume-level resolution raises, and the whole run aborts with an error and
no effects instead of proceeding with a default. -/
theorem C5_counterexample :
    instanceRetention [(RETENTION_TAG, "abc")] = none ∧
    volumeRetention [(RETENTION_TAG, "abc")] 5 = none ∧
    lambda_handler 1000000 1000001 ⟨2026, 1, 2, 3, 4, 5, 123456⟩
      [⟨"i-2", "running", some [⟨"MakeSnapshot", "true"⟩, ⟨"Retention", "abc"⟩],
        [⟨"vol-1", none, []⟩]⟩] = PyResult.err [] :=
  ⟨rfl, rfl, rfl⟩

/-- C5 amended: a present but unparseable Retention value makes retention
resolution raise (no fallback to the default or to the instance value); the
uncaught error aborts the run. -/
theorem C5_unparseable_retention_raises (instance_tags volume_tags : List (String × String))
    (retention_days : Int) (s t : String)
    (hi : dget instance_tags RETENTION_TAG = some s) (hpi : pyInt? s = none)
    (hv : dget volume_tags RETENTION_TAG = some t) (hpv : pyInt? t = none) :
    instanceRetention instance_tags = none ∧
    volumeRetention volume_tags retention_days = none := by
  constructor
  · simp [instanceRetention, hi, hpi]
  · simp [volumeRetention, hv, hpv]

/-- C5 witness: the unparseable values abc and 3x raise at both levels. -/
theorem C5_unparseable_retention_raises_witness :
    instanceRetention [(RETENTION_TAG, "abc")] = none ∧
    volumeRetention [(RETENTION_TAG, "3x")] 5 = none :=
  C5_unparseable_retention_raises [(RETENTION_TAG, "abc")] [(RETENTION_TAG, "3x")] 5
    "abc" "3x" rfl rfl rfl rfl

/-- C2 counterexample: with exactly one prior eligible snapshot aged ten
days (retention five), the run DOES delete it, contrary to the claim: the
snapshot created by the run itself carries the AutoDelete tag and is
visible to the listing, so the tagged count at purge time is 2 > 1. -/
theorem C2_counterexample :
    Effect.deleteSnapshot "snap-old" ∈
      effectsOf (lambda_handler 1000000 1000001 ⟨2026, 1, 2, 3, 4, 5, 123456⟩
        [⟨"i-1", "running", some [⟨"MakeSnapshot", "true"⟩, ⟨"Retention", "5"⟩],
          [⟨"vol-1", none,
            [⟨"snap-old", 136000, some [⟨"AutoDelete", "true"⟩]⟩]⟩]⟩]) := by
  decide

/-- C2 amended: in the one-prior-snapshot scenario the run creates the new
snapshot, tags it, and deletes the ten-day-old snapshot, because the
eligible count at purge time is 2 (the new snapshot included), exceeding
the minimum retention count floor of 1; the new snapshot is retained. -/
theorem C2_single_prior_snapshot_deleted :
    lambda_handler 1000000 1000001 ⟨2026, 1, 2, 3, 4, 5, 123456⟩
      [⟨"i-1", "running", some [⟨"MakeSnapshot", "true"⟩, ⟨"Retention", "5"⟩],
        [⟨"vol-1", none,
          [⟨"snap-old", 136000, some [⟨"AutoDelete", "true"⟩]⟩]⟩]⟩] =
    PyResult.ok
      [Effect.createSnapshot "vol-1" "i-1.vol-1.2026-01-02T03:04:05" "snap-new.vol-1",
       Effect.createTags "snap-new.vol-1" [⟨"AutoDelete", "true"⟩],
       Effect.deleteSnapshot "snap-old"] true := by
  decide

/-- C1: for a processed volume, a snapshot among those listed with the
AutoDelete tag key (the just-created one included) is deleted exactly when
its tag value lower-cases to true, its age strictly exceeds the effective
retention period, and the tagged count at purge time exceeds the floor of
1; when that count is at most 1, nothing is deleted for the volume. -/
theorem C1_delete_iff (nowS purgeS : Int) (now : PyDateTime) (instance_name : String)
    (retention_days vrd : Int) (vol : Volume) (s : Snapshot)
    (hproc : pyLower ((dget (tags_dict vol.tags) SNAPSHOT_TAG).getD "True") ∉ skipValues)
    (hret : volumeRetention (tags_dict vol.tags) retention_days = some vrd)
    (hmem : s ∈ taggedSnapshots nowS vol)
    (hnodup : ((vol.snapshots ++ [newSnapshot nowS vol]).map Snapshot.id).Nodup) :
    (Effect.deleteSnapshot s.id ∈
        effectsOf (processVolume nowS purgeS now instance_name retention_days vol) ↔
      (autoDeleteValue s = "true" ∧ is_expired purgeS vrd s = true ∧
       MIN_RETENTION_COUNT < (taggedSnapshots nowS vol).length)) ∧
    ((taggedSnapshots nowS vol).length ≤ MIN_RETENTION_COUNT →
      ∀ x, Effect.deleteSnapshot x ∉
        effectsOf (processVolume nowS purgeS now instance_name retention_days vol)) := by
  rw [processVolume_eq nowS purgeS now instance_name retention_days vrd vol hproc hret]
  simp only [effectsOf]
  constructor
  · constructor
    · intro hmem2
      rw [List.mem_append] at hmem2
      rcases hmem2 with hc | hd
      · simp at hc
      · rw [mem_deletions_iff] at hd
        obtain ⟨hlt, t, ht, hdel, hid⟩ := hd
        have hts : t = s := by
          have ht' : t ∈ vol.snapshots ++ [newSnapshot nowS vol] := List.mem_of_mem_filter ht
          have hs' : s ∈ vol.snapshots ++ [newSnapshot nowS vol] := List.mem_of_mem_filter hmem
          exact List.inj_on_of_nodup_map hnodup ht' hs' hid
        subst hts
        simp only [shouldDelete, Bool.and_eq_true, decide_eq_true_eq] at hdel
        exact ⟨hdel.1, hdel.2, hlt⟩
    · rintro ⟨hauto, hexp, hlt⟩
      rw [List.mem_append]
      right
      rw [mem_deletions_iff]
      exact ⟨hlt, s, hmem, by simp [shouldDelete, hauto, hexp], rfl⟩
  · intro hle x hmem2
    rw [List.mem_append] at hmem2
    rcases hmem2 with hc | hd
    · simp at hc
    · rw [mem_deletions_iff] at hd
      have := hd.1
      omega

/-- C1 witness: a volume with one prior tagged snapshot aged ten days under
retention five days: the deletion condition holds on both sides of the
equivalence, and the purge-skip guard is vacuous since the count is 2. -/
theorem C1_delete_iff_witness :
    (Effect.deleteSnapshot "snap-a" ∈
        effectsOf (processVolume 1000000 1000001 ⟨2026, 1, 2, 3, 4, 5, 123456⟩ "i-1" 5
          ⟨"vol-9", none, [⟨"snap-a", 136000, some [⟨"AutoDelete", "true"⟩]⟩]⟩) ↔
      (autoDeleteValue ⟨"snap-a", 136000, some [⟨"AutoDelete", "true"⟩]⟩ = "true" ∧
       is_expired 1000001 5 ⟨"snap-a", 136000, some [⟨"AutoDelete", "true"⟩]⟩ = true ∧
       MIN_RETENTION_COUNT <
         (taggedSnapshots 1000000
           ⟨"vol-9", none, [⟨"snap-a", 136000, some [⟨"AutoDelete", "true"⟩]⟩]⟩).length)) ∧
    ((taggedSnapshots 1000000
        ⟨"vol-9", none, [⟨"snap-a", 136000, some [⟨"AutoDelete", "true"⟩]⟩]⟩).length ≤
          MIN_RETENTION_COUNT →
      ∀ x, Effect.deleteSnapshot x ∉
        effectsOf (processVolume 1000000 1000001 ⟨2026, 1, 2, 3, 4, 5, 123456⟩ "i-1" 5
          ⟨"vol-9", none, [⟨"snap-a", 136000, some [⟨"AutoDelete", "true"⟩]⟩]⟩)) :=
  C1_delete_iff 1000000 1000001 ⟨2026, 1, 2, 3, 4, 5, 123456⟩ "i-1" 5 5
    ⟨"vol-9", none, [⟨"snap-a", 136000, some [⟨"AutoDelete", "true"⟩]⟩]⟩
    ⟨"snap-a", 136000, some [⟨"AutoDelete", "true"⟩]⟩
    (by decide) rfl (by decide) (by decide)

/-- C6: an instance whose MakeSnapshot value lower-cases into the opt-out
set is skipped whole, with no effect for any of its volumes; a volume whose
own MakeSnapshot value is in the set is skipped alone; a volume without the
tag defaults to opt-in and gets a snapshot created. -/
theorem C6_opt_out (nowS purgeS : Int) (now : PyDateTime) (inst : Instance) (vol : Volume)
    (instance_name : String) (retention_days : Int) :
    (∀ v, dget (tags_dict inst.tags) SNAPSHOT_TAG = some v → pyLower v ∈ skipValues →
      processInstance nowS purgeS now inst = PyResult.ok [] ()) ∧
    (∀ v, dget (tags_dict vol.tags) SNAPSHOT_TAG = some v → pyLower v ∈ skipValues →
      processVolume nowS purgeS now instance_name retention_days vol = PyResult.ok [] ()) ∧
    (dget (tags_dict vol.tags) SNAPSHOT_TAG = none →
      Effect.createSnapshot vol.id (snapshotDescription instance_name vol.id now)
          (newSnapshotId vol) ∈
        effectsOf (processVolume nowS purgeS now instance_name retention_days vol)) := by
  refine ⟨?_, ?_, ?_⟩
  · intro v hv hs
    simp only [processInstance, hv, Option.getD_some]
    rw [if_pos hs]
  · intro v hv hs
    simp only [processVolume, hv, Option.getD_some]
    rw [if_pos hs]
  · intro hv
    simp only [processVolume, hv, Option.getD_none]
    rw [if_neg (by decide : ¬ (pyLower "True" ∈ skipValues))]
    cases hR : volumeRetention (tags_dict vol.tags) retention_days with
    | none => simp [hR, effectsOf]
    | some vrd => simp [hR, effectsOf]

/-- C6 witness: an instance opted out with value False produces nothing; a
volume opted out with value 0 produces nothing; an untagged volume on an
opted-in path gets its snapshot created. -/
theorem C6_opt_out_witness :
    processInstance 0 1 ⟨2026, 1, 1, 0, 0, 0, 0⟩
        ⟨"i-1", "running", some [⟨"MakeSnapshot", "False"⟩], []⟩ = PyResult.ok [] () ∧
    processVolume 0 1 ⟨2026, 1, 1, 0, 0, 0, 0⟩ "i-1" 2
        ⟨"vol-0", some [⟨"MakeSnapshot", "0"⟩], []⟩ = PyResult.ok [] () ∧
    Effect.createSnapshot "vol-1"
        (snapshotDescription "i-1" "vol-1" ⟨2026, 1, 1, 0, 0, 0, 0⟩)
        (newSnapshotId ⟨"vol-1", none, []⟩) ∈
      effectsOf (processVolume 0 1 ⟨2026, 1, 1, 0, 0, 0, 0⟩ "i-1" 2 ⟨"vol-1", none, []⟩) :=
  ⟨(C6_opt_out 0 1 ⟨2026, 1, 1, 0, 0, 0, 0⟩
      ⟨"i-1", "running", some [⟨"MakeSnapshot", "False"⟩], []⟩
      ⟨"vol-0", some [⟨"MakeSnapshot", "0"⟩], []⟩ "i-1" 2).1 "False" rfl (by decide),
   (C6_opt_out 0 1 ⟨2026, 1, 1, 0, 0, 0, 0⟩
      ⟨"i-1", "running", some [⟨"MakeSnapshot", "False"⟩], []⟩
      ⟨"vol-0", some [⟨"MakeSnapshot", "0"⟩], []⟩ "i-1" 2).2.1 "0" rfl (by decide),
   (C6_opt_out 0 1 ⟨2026, 1, 1, 0, 0, 0, 0⟩
      ⟨"i-1", "running", some [⟨"MakeSnapshot", "False"⟩], []⟩
      ⟨"vol-1", none, []⟩ "i-1" 2).2.2 rfl⟩

/-- C9 counterexample: retention 0 is non-negative, yet the run deletes the
snapshot it just created: the purge clock of line 70 reads strictly after
the creation of line 49, so the new snapshot has a positive age, which
strictly exceeds a zero retention period; with one prior tagged snapshot
the count guard (2 > 1) does not fire, both snapshots are deleted, and the
volume ends the run with no snapshot at all. -/
theorem C9_counterexample :
    Effect.deleteSnapshot "snap-new.vol-1" ∈
      effectsOf (lambda_handler 1000000 1000001 ⟨2026, 1, 2, 3, 4, 5, 123456⟩
        [⟨"i-1", "running", some [⟨"MakeSnapshot", "true"⟩, ⟨"Retention", "0"⟩],
          [⟨"vol-1", none, [⟨"snap-old", 0, some [⟨"AutoDelete", "true"⟩]⟩]⟩]⟩]) ∧
    Effect.deleteSnapshot "snap-old" ∈
      effectsOf (lambda_handler 1000000 1000001 ⟨2026, 1, 2, 3, 4, 5, 123456⟩
        [⟨"i-1", "running", some [⟨"MakeSnapshot", "true"⟩, ⟨"Retention", "0"⟩],
          [⟨"vol-1", none, [⟨"snap-old", 0, some [⟨"AutoDelete", "true"⟩]⟩]⟩]⟩]) := by
  exact ⟨by decide, by decide⟩

/-- C9 amended: the snapshot created for a processed volume is not deleted
by the same run provided its age at the purge check (purge clock minus its
creation instant) does not strictly exceed the effective retention period;
any positive retention period guarantees this for a run completing within
it, and the volume then ends the run with at least one snapshot the run
did not delete.  With retention 0, the strictly positive delay between
creation and the purge check makes the run delete its own snapshot. -/
theorem C9_new_snapshot_survives (nowS purgeS : Int) (now : PyDateTime)
    (instance_name : String) (retention_days vrd : Int) (vol : Volume)
    (hproc : pyLower ((dget (tags_dict vol.tags) SNAPSHOT_TAG).getD "True") ∉ skipValues)
    (hret : volumeRetention (tags_dict vol.tags) retention_days = some vrd)
    (hage : purgeS - nowS ≤ vrd * 86400)
    (hfresh : newSnapshotId vol ∉ vol.snapshots.map Snapshot.id) :
    Effect.deleteSnapshot (newSnapshotId vol) ∉
      effectsOf (processVolume nowS purgeS now instance_name retention_days vol) ∧
    ∃ s ∈ vol.snapshots ++ [newSnapshot nowS vol],
      Effect.deleteSnapshot s.id ∉
        effectsOf (processVolume nowS purgeS now instance_name retention_days vol) := by
  have hnotdel : Effect.deleteSnapshot (newSnapshotId vol) ∉
      effectsOf (processVolume nowS purgeS now instance_name retention_days vol) := by
    rw [processVolume_eq nowS purgeS now instance_name retention_days vrd vol hproc hret]
    simp only [effectsOf]
    rw [List.mem_append]
    rintro (hc | hd)
    · simp at hc
    · rw [mem_deletions_iff] at hd
      obtain ⟨-, t, ht, hdel, hid⟩ := hd
      have ht' : t ∈ vol.snapshots ++ [newSnapshot nowS vol] := List.mem_of_mem_filter ht
      rw [List.mem_append] at ht'
      rcases ht' with hold | hnew
      · have hmap : t.id ∈ vol.snapshots.map Snapshot.id := List.mem_map_of_mem _ hold
        rw [hid] at hmap
        exact hfresh hmap
      · rw [List.mem_singleton] at hnew
        subst hnew
        simp only [shouldDelete, newSnapshot, Bool.and_eq_true, decide_eq_true_eq] at hdel
        have h2 := hdel.2
        simp only [is_expired, decide_eq_true_eq] at h2
        omega
  refine ⟨hnotdel, newSnapshot nowS vol, ?_, ?_⟩
  · exact List.mem_append_right _ (List.mem_singleton_self _)
  · exact hnotdel

/-- C9 witness: a fresh volume with no prior snapshots, retention two days,
the purge check one second after creation: the new snapshot survives. -/
theorem C9_new_snapshot_survives_witness :
    Effect.deleteSnapshot (newSnapshotId ⟨"vol-1", none, []⟩) ∉
      effectsOf (processVolume 0 1 ⟨2026, 1, 1, 0, 0, 0, 0⟩ "i-1" 2 ⟨"vol-1", none, []⟩) ∧
    ∃ s ∈ (⟨"vol-1", none, []⟩ : Volume).snapshots ++ [newSnapshot 0 ⟨"vol-1", none, []⟩],
      Effect.deleteSnapshot s.id ∉
        effectsOf (processVolume 0 1 ⟨2026, 1, 1, 0, 0, 0, 0⟩ "i-1" 2 ⟨"vol-1", none, []⟩) :=
  C9_new_snapshot_survives 0 1 ⟨2026, 1, 1, 0, 0, 0, 0⟩ "i-1" 2 2 ⟨"vol-1", none, []⟩
    (by decide) rfl (by decide) (by decide)

/-- The instance loop aborts at the first raising instance: effects of the
prefix only, the raising instance contributing none. -/
theorem runInstances_err_after (nowS purgeS : Int) (now : PyDateTime)
    (pre post : List Instance) (inst : Instance) (es : List Effect)
    (hpre : runInstances nowS purgeS now pre = PyResult.ok es ())
    (hinst : processInstance nowS purgeS now inst = PyResult.err []) :
    runInstances nowS purgeS now (pre ++ inst :: post) = PyResult.err es := by
  induction pre generalizing es with
  | nil =>
    have hes : es = [] := by
      have h0 : runInstances nowS purgeS now [] = PyResult.ok [] () := rfl
      rw [h0] at hpre
      injection hpre with h1 h2
      exact h1.symm
    subst hes
    show runInstances nowS purgeS now (inst :: post) = PyResult.err []
    simp only [runInstances, hinst]
  | cons i rest ih =>
    rw [List.cons_append]
    simp only [runInstances] at hpre ⊢
    cases hpi : processInstance nowS purgeS now i with
    | err es1 =>
      rw [hpi] at hpre
      exact PyResult.noConfusion hpre
    | ok es1 v =>
      cases v
      simp only [hpi] at hpre ⊢
      cases hr : runInstances nowS purgeS now rest with
      | err es2 =>
        rw [hr] at hpre
        exact PyResult.noConfusion hpre
      | ok es2 v2 =>
        cases v2
        rw [hr] at hpre
        injection hpre with h1 h2
        subst h1
        simp [ih es2 hr]

/-- C10: the instance-level Retention value is parsed before any volume of
the instance is touched; an opted-in running instance with an unparseable
value makes the run raise with no effect for that instance, and no
instance after it in the enumeration is processed: the whole run ends in
error carrying only the effects of the preceding instances. -/
theorem C10_bad_retention_aborts (nowS purgeS : Int) (now : PyDateTime)
    (pre post : List Instance) (inst : Instance) (es : List Effect) (v : String)
    (hsel : ∀ i ∈ pre ++ inst :: post, isSelected i = true)
    (hopt : pyLower ((dget (tags_dict inst.tags) SNAPSHOT_TAG).getD "None") ∉ skipValues)
    (hv : dget (tags_dict inst.tags) RETENTION_TAG = some v)
    (hbad : pyInt? v = none)
    (hpre : runInstances nowS purgeS now pre = PyResult.ok es ()) :
    processInstance nowS purgeS now inst = PyResult.err [] ∧
    lambda_handler nowS purgeS now (pre ++ inst :: post) = PyResult.err es := by
  have hpi : processInstance nowS purgeS now inst = PyResult.err [] := by
    simp only [processInstance]
    rw [if_neg hopt]
    simp only [instanceRetention, hv, hbad]
  refine ⟨hpi, ?_⟩
  have hrun := runInstances_err_after nowS purgeS now pre post inst es hpre hpi
  simp only [lambda_handler, List.filter_eq_self.mpr hsel, hrun]

/-- C10 witness: a single selected instance with Retention abc makes the
run raise with no effects at all. -/
theorem C10_bad_retention_aborts_witness :
    processInstance 0 1 ⟨2026, 1, 1, 0, 0, 0, 0⟩
        ⟨"i-2", "running", some [⟨"MakeSnapshot", "true"⟩, ⟨"Retention", "abc"⟩],
          [⟨"vol-1", none, []⟩]⟩ = PyResult.err [] ∧
    lambda_handler 0 1 ⟨2026, 1, 1, 0, 0, 0, 0⟩
        ([] ++ ⟨"i-2", "running", some [⟨"MakeSnapshot", "true"⟩, ⟨"Retention", "abc"⟩],
          [⟨"vol-1", none, []⟩]⟩ :: []) = PyResult.err [] :=
  C10_bad_retention_aborts 0 1 ⟨2026, 1, 1, 0, 0, 0, 0⟩ [] []
    ⟨"i-2", "running", some [⟨"MakeSnapshot", "true"⟩, ⟨"Retention", "abc"⟩],
      [⟨"vol-1", none, []⟩]⟩ [] "abc"
    (by decide) (by decide) rfl rfl rfl

end EbsBackup
